import Mathlib

/-!
Verification of the measurement backend of ocp_vscode (src/ocp_vscode/backend.py).

The backend receives events (a serialized model, tool activation, shape
selection) and answers measurement requests (distance, properties, angle)
about shapes of the model. Geometry-kernel outputs (centers, radii, normals,
tangents, areas, volumes) are embedded as data carried by each shape variant;
points are rational triples, while distance and angle values live in the reals.
-/

set_option autoImplicit false

namespace OCPBackend

/-- A 3d point or vector with rational coordinates. -/
structure Vec3 where
  x : ℚ
  y : ℚ
  z : ℚ
  deriving DecidableEq, Repr

def Vec3.add (a b : Vec3) : Vec3 := ⟨a.x + b.x, a.y + b.y, a.z + b.z⟩

def Vec3.sub (a b : Vec3) : Vec3 := ⟨a.x - b.x, a.y - b.y, a.z - b.z⟩

/-- Division of a vector by the scalar 2, as in the cylinder midpoint formula. -/
def Vec3.div2 (a : Vec3) : Vec3 := ⟨a.x / 2, a.y / 2, a.z / 2⟩

/-- Euclidean dot product. -/
def dot (a b : Vec3) : ℚ := a.x * b.x + a.y * b.y + a.z * b.z

/-- Rounding a rational to 2 decimals, the model of the round(value, 2)
calls made by set_precision on float fields. -/
def round2q (x : ℚ) : ℚ := (Int.floor (x * 100 + 1 / 2) : ℚ) / 100

/-- set_precision applied to a tuple field: every coordinate is rounded. -/
def Vec3.round2 (v : Vec3) : Vec3 := ⟨round2q v.x, round2q v.y, round2q v.z⟩

/-- Rounding a real scalar (a distance or an angle) to 2 decimals. -/
noncomputable def round2R (x : ℝ) : ℝ := (Int.floor (x * 100 + 1 / 2) : ℝ) / 100

/-- Euclidean length of a vector, the model of Vector.length. -/
noncomputable def euclid (v : Vec3) : ℝ := Real.sqrt ((dot v v : ℚ) : ℝ)

/-- Angle in degrees between two vectors, the model of Vector.get_angle
delegated to the geometry kernel: arccos of the normalized dot product. -/
noncomputable def getAngle (a b : Vec3) : ℝ :=
  Real.arccos (((dot a b : ℚ) : ℝ) /
    (Real.sqrt ((dot a a : ℚ) : ℝ) * Real.sqrt ((dot b b : ℚ) : ℝ))) * 180 / Real.pi

/-- Kernel data carried by a Vertex: its coordinates (to_tuple and center). -/
structure VertexData where
  coords : Vec3
  deriving DecidableEq, Repr

/-- Kernel data carried by an Edge: geom_type label, arc_center, center
(the curve midpoint), length, radius, normal and the tangent at parameter 0. -/
structure EdgeData where
  geomType : String
  arcCenter : Vec3
  centerPt : Vec3
  length : ℚ
  radius : ℚ
  normal : Vec3
  tangentAt0 : Vec3
  deriving DecidableEq, Repr

/-- Kernel data carried by a Face: geom_type label, center, the boundary
edges (shape.edges()), length, width, area, and the z direction of the
plane built from the face by Plane(face). -/
structure FaceData where
  geomType : String
  centerPt : Vec3
  edges : List EdgeData
  length : ℚ
  width : ℚ
  area : ℚ
  zDir : Vec3
  deriving DecidableEq, Repr

/-- Kernel data carried by a Solid: geom_type label, center and volume. -/
structure SolidData where
  geomType : String
  centerPt : Vec3
  volume : ℚ
  deriving DecidableEq, Repr

/-- The polymorphic shape value stored in the model. -/
inductive Shape
  | vertex (v : VertexData)
  | edge (e : EdgeData)
  | face (f : FaceData)
  | solid (s : SolidData)
  deriving DecidableEq, Repr

/-- shape.center() of the kernel, the generic geometric center. -/
def Shape.centerOf : Shape → Vec3
  | .vertex v => v.coords
  | .edge e => e.centerPt
  | .face f => f.centerPt
  | .solid s => s.centerPt

/-- shape.geom_type() of the kernel. A Vertex reports the label VERTEX. -/
def shapeGeomType : Shape → String
  | .vertex _ => "VERTEX"
  | .edge e => e.geomType
  | .face f => f.geomType
  | .solid s => s.geomType

def Shape.isVertex : Shape → Bool
  | .vertex _ => true
  | _ => false

/-- Python str.capitalize: first character upper case, the rest lower case. -/
def pyCapitalize (s : String) : String :=
  match s.data with
  | [] => ""
  | c :: cs => String.mk (c.toUpper :: cs.map Char.toLower)

/-- shape.edges().filter_by(GeomType.CIRCLE): the circular boundary edges
of a face, in order. -/
def circularEdges (f : FaceData) : List EdgeData :=
  f.edges.filter fun e => e.geomType = "CIRCLE"

/-- ViewerBackend.get_center (backend.py lines 230 to 265). Returns none
exactly where the Python code raises: taking .first of an empty filtered
edge list on a cylindrical face in distance mode. -/
def get_center (shape : Shape) (for_distance : Bool) : Option Vec3 :=
  match shape with
  | .vertex v => some v.coords
  | .edge e =>
      if e.geomType = "CIRCLE" ∨ e.geomType = "ELLIPSE" then
        some (if for_distance then e.arcCenter else e.centerPt)
      else
        some e.centerPt
  | .face f =>
      if f.geomType = "CYLINDER" then
        if for_distance then
          let ext := circularEdges f
          if ext.length = 2 then
            match ext.head?, ext.getLast? with
            | some a, some b =>
                some (Vec3.sub a.arcCenter (Vec3.div2 (Vec3.sub a.arcCenter b.arcCenter)))
            | _, _ => none
          else
            ext.head?.map fun c => c.arcCenter
        else some f.centerPt
      else some f.centerPt
  | .solid s => some s.centerPt

/-- Specification-side restatement of Center Resolution, written from the
rules of spec section 4.6: vertex point, arc center or curve midpoint for a
circular or elliptical edge, axis midpoint or single arc center for a
cylindrical face in distance mode, generic center otherwise. The cases the
spec does not cover (a cylindrical face in distance mode whose circular
boundary edge count is neither one nor two) are left unspecified (none). -/
def centerSpec (shape : Shape) (for_distance : Bool) : Option Vec3 :=
  match shape with
  | .vertex v => some v.coords
  | .edge e =>
      if e.geomType = "CIRCLE" ∨ e.geomType = "ELLIPSE" then
        some (if for_distance then e.arcCenter else e.centerPt)
      else
        some e.centerPt
  | .face f =>
      if f.geomType = "CYLINDER" ∧ for_distance = true then
        match circularEdges f with
        | [a] => some a.arcCenter
        | [a, b] => some (Vec3.div2 (Vec3.add a.arcCenter b.arcCenter))
        | _ => none
      else some f.centerPt
  | .solid s => some s.centerPt

/-- The tool name literals of the Tool dataclass. -/
def Tool.Distance : String := "DistanceMeasurement"

def Tool.Properties : String := "PropertiesMeasurement"

def Tool.Angle : String := "AngleMeasurement"

/-- The model store: shape identifiers mapped to shapes. -/
abbrev Model := List (Nat × Shape)

/-- The mutable state of ViewerBackend: model (None before the first data
event) and activated_tool (None, or the raw tool name string). -/
structure BackendState where
  model : Option Model
  activated_tool : Option String
  deriving DecidableEq, Repr

/-- A state-update event: the activeTool key, when present, and the
selectedShapeIDs key, when present. -/
structure Changes where
  activeTool : Option String
  selectedShapeIDs : Option (List Nat)
  deriving DecidableEq, Repr

/-- An inbound event: a data event carrying the decode result of the model
payload, or an updates event carrying changed state keys. -/
inductive Event
  | data (payload : Except String Model)
  | updates (changes : Changes)

/-- The activeTool part of handle_event (backend.py lines 121 to 127): an
absent key leaves the tool alone, the literal None string deactivates, any
other string becomes the new activated_tool. -/
def update_tool (tool : Option String) (changes : Changes) : Option String :=
  match changes.activeTool with
  | none => tool
  | some active_tool => if active_tool ≠ "None" then some active_tool else none

/-- The measurement request a dispatch resolves to. -/
inductive Dispatch
  | distance (id1 id2 : Nat)
  | properties (id : Nat)
  | angle (id1 id2 : Nat)
  deriving DecidableEq, Repr

/-- ViewerBackend.handle_activated_tool (backend.py lines 132 to 149):
returns the handler invocation, or none when the selection key is absent
or no tool and arity combination matches. -/
def handle_activated_tool (tool : String) (changes : Changes) : Option Dispatch :=
  match changes.selectedShapeIDs with
  | none => none
  | some ids =>
      if tool = Tool.Distance ∧ ids.length = 2 then
        match ids with
        | i1 :: i2 :: _ => some (.distance i1 i2)
        | _ => none
      else if tool = Tool.Properties ∧ ids.length = 1 then
        match ids with
        | i :: _ => some (.properties i)
        | _ => none
      else if tool = Tool.Angle ∧ ids.length = 2 then
        match ids with
        | i1 :: i2 :: _ => some (.angle i1 i2)
        | _ => none
      else none

/-- Specification-side dispatch table of section 4.3: the required arity of
each recognized tool, none for unrecognized tool names. -/
def requiredArity (tool : String) : Option Nat :=
  if tool = Tool.Distance then some 2
  else if tool = Tool.Properties then some 1
  else if tool = Tool.Angle then some 2
  else none

/-- self.model[shape_id]: fails when the model is still None (TypeError)
or the identifier is unknown (KeyError). -/
def lookupShape (model : Option Model) (shape_id : Nat) : Except String Shape :=
  match model with
  | none => .error "TypeError"
  | some m =>
      match m.lookup shape_id with
      | some s => .ok s
      | none => .error "KeyError"

/-- The tool_response records, tagged by tool_type. Scalar measurement
values are reals; point tuples are rational triples. -/
structure DistanceResponse where
  point1 : Vec3
  point2 : Vec3
  distance : ℝ

structure PropertiesResponse where
  center : Option Vec3
  vertex_coords : Option Vec3
  length : Option ℚ
  width : Option ℚ
  area : Option ℚ
  volume : Option ℚ
  radius : Option ℚ
  geom_type : Option String
  deriving DecidableEq, Repr

/-- A PropertiesResponse with every measurement field absent. -/
def PropertiesResponse.empty : PropertiesResponse :=
  ⟨none, none, none, none, none, none, none, none⟩

structure AngleResponse where
  angle : ℝ
  point1 : Vec3
  point2 : Vec3

/-- set_precision on a PropertiesResponse: every float field and every
element of a tuple field is rounded to 2 decimals; None fields are kept. -/
def setPrecisionProps (r : PropertiesResponse) : PropertiesResponse :=
  { center := r.center.map Vec3.round2
    vertex_coords := r.vertex_coords.map Vec3.round2
    length := r.length.map round2q
    width := r.width.map round2q
    area := r.area.map round2q
    volume := r.volume.map round2q
    radius := r.radius.map round2q
    geom_type := r.geom_type }

/-- ViewerBackend.handle_distance (backend.py lines 267 to 281) after the
shape lookups: both centers in distance mode, the Euclidean distance of the
difference, all rounded by set_precision. -/
noncomputable def handle_distance_shapes (shape1 shape2 : Shape) : Option DistanceResponse :=
  match get_center shape1 true, get_center shape2 true with
  | some p1, some p2 =>
      some { point1 := p1.round2
             point2 := p2.round2
             distance := round2R (euclid (Vec3.sub p2 p1)) }
  | _, _ => none

/-- ViewerBackend.handle_properties (backend.py lines 155 to 186) after the
shape lookup: the per-variant fields, then geom_type and the center in
non-distance mode, then set_precision. Returns none exactly where the
Python code raises: taking .first of an empty circular edge list on a face
whose geom_type is CYLINDER. -/
def handle_properties_shape (shape : Shape) : Option PropertiesResponse :=
  let base := PropertiesResponse.empty
  let step1 : Option PropertiesResponse :=
    match shape with
    | .vertex v => some { base with vertex_coords := some v.coords }
    | .edge e =>
        some { base with
                 radius := if e.geomType = "CIRCLE" then some e.radius else none
                 length := some e.length }
    | .face f =>
        if f.geomType = "CYLINDER" then
          match (circularEdges f).head? with
          | some circEdge =>
              some { base with
                       radius := some circEdge.radius
                       length := some f.length
                       width := some f.width
                       area := some f.area }
          | none => none
        else
          some { base with
                   length := some f.length
                   width := some f.width
                   area := some f.area }
    | .solid s => some { base with volume := some s.volume }
  match step1 with
  | none => none
  | some r =>
      let gt := pyCapitalize (shapeGeomType shape)
      match get_center shape false with
      | none => none
      | some c =>
          some (setPrecisionProps
            { r with
                geom_type := if gt = "Vertex" then none else some gt
                center := some c })

/-- The directional reference derived for one shape by handle_angle: a
plane (carrying its z direction) or a vector. -/
inductive RefKind
  | plane (zdir : Vec3)
  | vector (v : Vec3)
  deriving DecidableEq, Repr

/-- The conditional chain of backend.py lines 194 to 207: a Face gives the
plane built from it, a circular or elliptical Edge gives a plane whose z
direction is the edge normal, any other Edge gives its tangent at
parameter 0, and a Vertex or Solid raises (tangent_at is undefined). -/
def derive_ref (shape : Shape) : Option RefKind :=
  match shape with
  | .face f => some (.plane f.zDir)
  | .edge e =>
      if e.geomType = "CIRCLE" ∨ e.geomType = "ELLIPSE" then
        some (.plane e.normal)
      else
        some (.vector e.tangentAt0)
  | _ => none

/-- The branch selection of backend.py lines 208 to 216 on the two derived
references. -/
noncomputable def angle_value (first second : RefKind) : ℝ :=
  match first, second with
  | .plane z1, .plane z2 => getAngle z1 z2
  | .vector v1, .vector v2 => getAngle v1 v2
  | .plane z, .vector v => 90 - getAngle z v
  | .vector v, .plane z => 90 - getAngle z v

/-- ViewerBackend.handle_angle (backend.py lines 188 to 228) after the
shape lookups: derive both references, take the absolute angle of the
selected branch, anchor points are the distance-mode centers, everything
rounded by set_precision. -/
noncomputable def handle_angle_shapes (shape1 shape2 : Shape) : Option AngleResponse :=
  match derive_ref shape1, derive_ref shape2 with
  | some first, some second =>
      match get_center shape1 true, get_center shape2 true with
      | some p1, some p2 =>
          some { angle := round2R |angle_value first second|
                 point1 := p1.round2
                 point2 := p2.round2 }
      | _, _ => none
  | _, _ => none

/-- handle_distance with the model lookups of its two identifiers. -/
noncomputable def handle_distance (model : Option Model) (id1 id2 : Nat) :
    Except String DistanceResponse :=
  match lookupShape model id1 with
  | .error e => .error e
  | .ok s1 =>
      match lookupShape model id2 with
      | .error e => .error e
      | .ok s2 =>
          match handle_distance_shapes s1 s2 with
          | some r => .ok r
          | none => .error "AttributeError"

/-- handle_properties with the model lookup of its identifier. -/
def handle_properties (model : Option Model) (shape_id : Nat) :
    Except String PropertiesResponse :=
  match lookupShape model shape_id with
  | .error e => .error e
  | .ok s =>
      match handle_properties_shape s with
      | some r => .ok r
      | none => .error "IndexError"

/-- handle_angle with the model lookups of its two identifiers. -/
noncomputable def handle_angle (model : Option Model) (id1 id2 : Nat) :
    Except String AngleResponse :=
  match lookupShape model id1 with
  | .error e => .error e
  | .ok s1 =>
      match lookupShape model id2 with
      | .error e => .error e
      | .ok s2 =>
          match handle_angle_shapes s1 s2 with
          | some r => .ok r
          | none => .error "AttributeError"

/-- The response record emitted by one event, tagged by tool_type. -/
inductive Response
  | distance (r : DistanceResponse)
  | properties (r : PropertiesResponse)
  | angle (r : AngleResponse)

/-- Run the dispatched handler against the current model. -/
noncomputable def run_dispatch (model : Option Model) (d : Dispatch) :
    Except String Response :=
  match d with
  | .distance i1 i2 => (handle_distance model i1 i2).map .distance
  | .properties i => (handle_properties model i).map .properties
  | .angle i1 i2 => (handle_angle model i1 i2).map .angle

/-- ViewerBackend.load_model (backend.py lines 151 to 153): decode failures
raise before the assignment, a successful decode replaces the model whole. -/
def load_model (st : BackendState) (payload : Except String Model) :
    Except (BackendState × String) BackendState :=
  match payload with
  | .ok m => .ok { st with model := some m }
  | .error e => .error (st, e)

/-- ViewerBackend.handle_event (backend.py lines 114 to 130) without the
error_handler wrapper: an error result also carries the state at the point
of the raise, since the tool-state assignment precedes dispatch. -/
noncomputable def handle_event_core (st : BackendState) (ev : Event) :
    Except (BackendState × String) (BackendState × Option Response) :=
  match ev with
  | .data payload =>
      match load_model st payload with
      | .ok st1 => .ok (st1, none)
      | .error e => .error e
  | .updates changes =>
      let tool1 := update_tool st.activated_tool changes
      let st1 : BackendState := { st with activated_tool := tool1 }
      match tool1 with
      | none => .ok (st1, none)
      | some t =>
          match handle_activated_tool t changes with
          | none => .ok (st1, none)
          | some d =>
              match run_dispatch st1.model d with
              | .ok r => .ok (st1, some r)
              | .error e => .error (st1, e)

/-- The error_handler wrapper (backend.py lines 27 to 35) around
handle_event: an exception is caught, a diagnostic is printed (the Bool
component), no response is emitted, and the loop continues from the state
reached at the raise. -/
noncomputable def handle_event (st : BackendState) (ev : Event) :
    BackendState × Option Response × Bool :=
  match handle_event_core st ev with
  | .ok (st1, r) => (st1, r, false)
  | .error (st1, _) => (st1, none, true)

/-! ### Concrete sample data used to evaluate the definitions -/

/-- A circular edge of radius 1 in the plane z = 0. -/
def wCircA : EdgeData :=
  ⟨"CIRCLE", ⟨0, 0, 0⟩, ⟨1, 0, 0⟩, 6, 1, ⟨0, 0, 1⟩, ⟨0, 1, 0⟩⟩

/-- A circular edge of radius 1 in the plane z = 4. -/
def wCircB : EdgeData :=
  ⟨"CIRCLE", ⟨0, 0, 4⟩, ⟨1, 0, 4⟩, 6, 1, ⟨0, 0, 1⟩, ⟨0, 1, 0⟩⟩

/-- An open cylindrical face bounded by the two circular edges. -/
def wCyl : FaceData :=
  ⟨"CYLINDER", ⟨1, 0, 2⟩, [wCircA, wCircB], 6, 4, 25, ⟨0, 0, 1⟩⟩

/-- A cylindrical face with no circular boundary edge at all. -/
def wCylBare : FaceData :=
  ⟨"CYLINDER", ⟨1, 0, 2⟩, [], 6, 4, 25, ⟨0, 0, 1⟩⟩

/-- A vertex at coordinates (1, 2, 3). -/
def wVert : VertexData := ⟨⟨1, 2, 3⟩⟩

/-- The properties record the backend answers for wVert. -/
def wVertResp : PropertiesResponse :=
  setPrecisionProps ⟨some ⟨1, 2, 3⟩, some ⟨1, 2, 3⟩, none, none, none, none, none, none⟩

/-- A planar face centred at the origin with normal (0, 0, 1). -/
def wFace1 : FaceData := ⟨"PLANE", ⟨0, 0, 0⟩, [], 1, 1, 1, ⟨0, 0, 1⟩⟩

/-- A planar face centred at (2, 0, 0) with normal (0, 1, 0). -/
def wFace2 : FaceData := ⟨"PLANE", ⟨2, 0, 0⟩, [], 1, 1, 1, ⟨0, 1, 0⟩⟩

/-- A model holding two vertices at distance 5 from each other. -/
def wModel : Model := [(0, Shape.vertex ⟨⟨0, 0, 0⟩⟩), (1, Shape.vertex ⟨⟨3, 4, 0⟩⟩)]

/-- The distance record for selecting ids 0 then 1 of wModel. -/
noncomputable def wDistAB : DistanceResponse :=
  ⟨Vec3.round2 ⟨0, 0, 0⟩, Vec3.round2 ⟨3, 4, 0⟩,
    round2R (euclid (Vec3.sub ⟨3, 4, 0⟩ ⟨0, 0, 0⟩))⟩

/-- The distance record for selecting ids 1 then 0 of wModel. -/
noncomputable def wDistBA : DistanceResponse :=
  ⟨Vec3.round2 ⟨3, 4, 0⟩, Vec3.round2 ⟨0, 0, 0⟩,
    round2R (euclid (Vec3.sub ⟨0, 0, 0⟩ ⟨3, 4, 0⟩))⟩

/-- The distance record for selecting id 0 twice in wModel. -/
noncomputable def wDistAA : DistanceResponse :=
  ⟨Vec3.round2 ⟨0, 0, 0⟩, Vec3.round2 ⟨0, 0, 0⟩,
    round2R (euclid (Vec3.sub ⟨0, 0, 0⟩ ⟨0, 0, 0⟩))⟩

/-- The angle record for selecting wFace1 then wFace2. -/
noncomputable def wAngFF : AngleResponse :=
  ⟨round2R |angle_value (RefKind.plane ⟨0, 0, 1⟩) (RefKind.plane ⟨0, 1, 0⟩)|,
    Vec3.round2 ⟨0, 0, 0⟩, Vec3.round2 ⟨2, 0, 0⟩⟩

/-- The angle record for selecting wFace2 then wFace1. -/
noncomputable def wAngFFswap : AngleResponse :=
  ⟨round2R |angle_value (RefKind.plane ⟨0, 1, 0⟩) (RefKind.plane ⟨0, 0, 1⟩)|,
    Vec3.round2 ⟨2, 0, 0⟩, Vec3.round2 ⟨0, 0, 0⟩⟩

/-! ### Helper lemmas -/

theorem vec_midpoint (x y : Vec3) :
    Vec3.sub x (Vec3.div2 (Vec3.sub x y)) = Vec3.div2 (Vec3.add x y) := by
  simp only [Vec3.sub, Vec3.div2, Vec3.add, Vec3.mk.injEq]
  refine ⟨by ring, by ring, by ring⟩

theorem dot_comm (a b : Vec3) : dot a b = dot b a := by
  unfold dot
  ring

theorem getAngle_comm (a b : Vec3) : getAngle a b = getAngle b a := by
  unfold getAngle
  rw [dot_comm a b,
    mul_comm (Real.sqrt ((dot a a : ℚ) : ℝ)) (Real.sqrt ((dot b b : ℚ) : ℝ))]

theorem angle_value_swap (r1 r2 : RefKind) : angle_value r2 r1 = angle_value r1 r2 := by
  cases r1 <;> cases r2 <;> simp [angle_value] <;> exact getAngle_comm _ _

theorem euclid_sub_comm (a b : Vec3) : euclid (Vec3.sub a b) = euclid (Vec3.sub b a) := by
  have h : dot (Vec3.sub a b) (Vec3.sub a b) = dot (Vec3.sub b a) (Vec3.sub b a) := by
    unfold dot Vec3.sub
    ring
  unfold euclid
  rw [h]

theorem euclid_sub_self (a : Vec3) : euclid (Vec3.sub a a) = 0 := by
  have h : dot (Vec3.sub a a) (Vec3.sub a a) = 0 := by
    unfold dot Vec3.sub
    ring
  unfold euclid
  rw [h]
  simp

theorem round2R_zero : round2R 0 = 0 := by
  unfold round2R
  have h1 : ((0 : ℝ) * 100 + 1 / 2) = 1 / 2 := by ring
  rw [h1]
  have h2 : Int.floor ((1 : ℝ) / 2) = 0 := by
    rw [Int.floor_eq_zero_iff]
    constructor <;> norm_num
  rw [h2]
  norm_num

/-! ### The claims -/

/-- C1: Center resolution follows the stated priority rules: a Vertex gives
its own coordinate point in both modes; a circular or elliptical Edge gives
the arc center in distance mode and the curve midpoint otherwise; a
cylindrical Face in distance mode gives the midpoint of the two circular
boundary arc centers when exactly two exist and the single arc center when
exactly one exists; every other shape and mode combination, including
Solid, gives the generic geometric center. Stated as a refinement of the
specification-side centerSpec on every case the spec covers. -/
theorem C1_center_resolution (s : Shape) (m : Bool) (h : (centerSpec s m).isSome) :
    get_center s m = centerSpec s m := by
  cases s with
  | vertex v => rfl
  | edge e => rfl
  | solid sd => rfl
  | face f =>
      by_cases hg : f.geomType = "CYLINDER"
      · cases m with
        | false => simp [get_center, centerSpec, hg]
        | true =>
            rcases hext : circularEdges f with _ | ⟨a, _ | ⟨b, _ | ⟨c, tl⟩⟩⟩
            · simp [centerSpec, hg, hext] at h
            · simp [get_center, centerSpec, hg, hext]
            · simp [get_center, centerSpec, hg, hext]
              exact vec_midpoint _ _
            · simp [centerSpec, hg, hext] at h
      · simp [get_center, centerSpec, hg]

theorem C1_center_resolution_witness :
    (centerSpec (Shape.face wCyl) true).isSome = true ∧
      get_center (Shape.face wCyl) true = centerSpec (Shape.face wCyl) true :=
  ⟨by decide, C1_center_resolution (Shape.face wCyl) true (by decide)⟩

/-- C10: For a cylindrical Face queried in distance mode, get_center
returns a point exactly when the face has at least one circular boundary
edge: with two such edges it returns the midpoint of their arc centers,
with any other non-zero count it returns the first circular edge arc
center, and with zero such edges the access to the first element of the
empty filtered list fails (none). -/
theorem C10_cylinder_distance_center (f : FaceData) (h : f.geomType = "CYLINDER") :
    ((get_center (Shape.face f) true).isSome ↔ circularEdges f ≠ []) ∧
      (∀ a b, circularEdges f = [a, b] →
        get_center (Shape.face f) true =
          some (Vec3.div2 (Vec3.add a.arcCenter b.arcCenter))) ∧
      (∀ c tl, circularEdges f = c :: tl → tl.length ≠ 1 →
        get_center (Shape.face f) true = some c.arcCenter) ∧
      (circularEdges f = [] → get_center (Shape.face f) true = none) := by
  refine ⟨?_, ?_, ?_, ?_⟩
  · rcases hext : circularEdges f with _ | ⟨c, _ | ⟨b, _ | ⟨c2, tl⟩⟩⟩
    · simp [get_center, h, hext]
    · simp [get_center, h, hext]
    · simp [get_center, h, hext]
    · simp [get_center, h, hext]
  · intro a b hext
    simp [get_center, h, hext]
    exact vec_midpoint _ _
  · intro c tl hext htl
    simp [get_center, h, hext, htl]
  · intro hext
    simp [get_center, h, hext]

theorem C10_cylinder_distance_center_witness :
    get_center (Shape.face wCyl) true =
        some (Vec3.div2 (Vec3.add wCircA.arcCenter wCircB.arcCenter)) ∧
      get_center (Shape.face wCylBare) true = none :=
  ⟨(C10_cylinder_distance_center wCyl rfl).2.1 wCircA wCircB rfl,
   (C10_cylinder_distance_center wCylBare rfl).2.2.2 rfl⟩

/-- C2: A measurement handler is dispatched exactly when a tool is active
and the selection length equals that tool arity (Distance 2, Properties 1,
Angle 2); when no tool is active, or the dispatcher matches nothing (wrong
length or unknown tool), the event produces no response, no dispatch and no
error. -/
theorem C2_dispatch_arity (tool : String) (ids : List Nat) (st : BackendState)
    (ch : Changes) :
    (ch.selectedShapeIDs = some ids →
      ((handle_activated_tool tool ch).isSome ↔ requiredArity tool = some ids.length)) ∧
      (update_tool st.activated_tool ch = none →
        handle_event st (.updates ch) = ({ st with activated_tool := none }, none, false)) ∧
      (∀ t, update_tool st.activated_tool ch = some t → handle_activated_tool t ch = none →
        handle_event st (.updates ch) =
          ({ st with activated_tool := some t }, none, false)) := by
  have hdp : Tool.Distance ≠ Tool.Properties := by decide
  have hda : Tool.Distance ≠ Tool.Angle := by decide
  have hpa : Tool.Properties ≠ Tool.Angle := by decide
  refine ⟨?_, ?_, ?_⟩
  · intro hsel
    by_cases hd : tool = Tool.Distance
    · subst hd
      rcases ids with _ | ⟨i1, _ | ⟨i2, _ | ⟨i3, tl⟩⟩⟩ <;>
        simp [handle_activated_tool, requiredArity, hsel, hdp, hda]
    · by_cases hp : tool = Tool.Properties
      · subst hp
        rcases ids with _ | ⟨i1, _ | ⟨i2, tl⟩⟩ <;>
          simp [handle_activated_tool, requiredArity, hsel, hdp.symm, hpa]
      · by_cases ha : tool = Tool.Angle
        · subst ha
          rcases ids with _ | ⟨i1, _ | ⟨i2, _ | ⟨i3, tl⟩⟩⟩ <;>
            simp [handle_activated_tool, requiredArity, hsel, hda.symm, hpa.symm]
        · simp [handle_activated_tool, requiredArity, hsel, hd, hp, ha]
  · intro hu
    simp [handle_event, handle_event_core, hu]
  · intro t hu hdisp
    simp [handle_event, handle_event_core, hu, hdisp]

theorem C2_dispatch_arity_witness :
    ((handle_activated_tool Tool.Distance
        { activeTool := none, selectedShapeIDs := some [0] }).isSome
      ↔ requiredArity Tool.Distance = some 1) ∧
      (handle_activated_tool Tool.Distance
        { activeTool := none, selectedShapeIDs := some [0] }).isSome = false :=
  ⟨(C2_dispatch_arity Tool.Distance [0] ⟨none, none⟩
      { activeTool := none, selectedShapeIDs := some [0] }).1 rfl,
   by decide⟩

/-- C3 counterexample: the claim says an unrecognized tool-name literal
fails with an InvalidToolError, but the code stores any non-None string as
the active tool without validation: the literal FooTool is accepted. -/
theorem C3_counterexample_no_validation :
    update_tool none { activeTool := some "FooTool", selectedShapeIDs := none } =
        some "FooTool" ∧
      requiredArity "FooTool" = none := by
  decide

/-- C3 amended: the update maps the literal None to the inactive state and
stores any other literal, recognized or not, as the active tool; no
validation failure exists, and an unrecognized literal simply never matches
any dispatch arity. -/
theorem C3_tool_update_amended (st : Option String) (t : String) (sel : Option (List Nat)) :
    update_tool st { activeTool := some "None", selectedShapeIDs := sel } = none ∧
      (t ≠ "None" → update_tool st { activeTool := some t, selectedShapeIDs := sel } = some t) ∧
      (∀ ch, requiredArity t = none → handle_activated_tool t ch = none) := by
  refine ⟨by simp [update_tool], ?_, ?_⟩
  · intro h
    simp [update_tool, h]
  · intro ch hreq
    have hd : t ≠ Tool.Distance := by
      intro hh
      rw [hh] at hreq
      simp [requiredArity] at hreq
    have hp : t ≠ Tool.Properties := by
      intro hh
      rw [hh] at hreq
      simp [requiredArity, show Tool.Properties ≠ Tool.Distance from by decide] at hreq
    have ha : t ≠ Tool.Angle := by
      intro hh
      rw [hh] at hreq
      simp [requiredArity, show Tool.Angle ≠ Tool.Distance from by decide,
        show Tool.Angle ≠ Tool.Properties from by decide] at hreq
    rcases hsel : ch.selectedShapeIDs with _ | ids
    · simp [handle_activated_tool, hsel]
    · simp [handle_activated_tool, hsel, hd, hp, ha]

theorem C3_tool_update_amended_witness :
    update_tool (some Tool.Distance)
        { activeTool := some "FooTool", selectedShapeIDs := none } = some "FooTool" :=
  (C3_tool_update_amended (some Tool.Distance) "FooTool" none).2.1 (by decide)

/-- C4: For every shape the Properties handler answers, exactly the
per-variant fields are populated: a Vertex only its coordinate triple; an
Edge its length plus a radius exactly when its geometry kind is a circle;
a Face its length, width and area plus a radius from its first circular
boundary edge exactly when its kind is cylinder; a Solid only its volume;
and every variant carries the capitalized geometry-kind label (absent
exactly for a Vertex) and the non-distance-mode center. The well-formedness
hypothesis states that no non-vertex kernel shape reports the geometry-kind
label of a vertex. -/
theorem C4_properties_fields (s : Shape) (r : PropertiesResponse)
    (hwf : s.isVertex = false → pyCapitalize (shapeGeomType s) ≠ "Vertex")
    (h : handle_properties_shape s = some r) :
    r.center = (get_center s false).map Vec3.round2 ∧
      r.geom_type = (if s.isVertex then none else some (pyCapitalize (shapeGeomType s))) ∧
      (match s with
       | .vertex v =>
           r.vertex_coords = some v.coords.round2 ∧ r.length = none ∧ r.width = none ∧
             r.area = none ∧ r.volume = none ∧ r.radius = none
       | .edge e =>
           r.length = some (round2q e.length) ∧
             r.radius = (if e.geomType = "CIRCLE" then some (round2q e.radius) else none) ∧
             r.vertex_coords = none ∧ r.width = none ∧ r.area = none ∧ r.volume = none
       | .face f =>
           r.length = some (round2q f.length) ∧ r.width = some (round2q f.width) ∧
             r.area = some (round2q f.area) ∧
             r.radius = (if f.geomType = "CYLINDER"
               then ((circularEdges f).head?).map (fun c => round2q c.radius) else none) ∧
             r.vertex_coords = none ∧ r.volume = none
       | .solid sd =>
           r.volume = some (round2q sd.volume) ∧ r.vertex_coords = none ∧ r.length = none ∧
             r.width = none ∧ r.area = none ∧ r.radius = none) := by
  cases s with
  | vertex v =>
      simp only [handle_properties_shape, PropertiesResponse.empty, shapeGeomType,
        get_center, show pyCapitalize "VERTEX" = "Vertex" from rfl, if_pos rfl,
        Option.some.injEq] at h
      subst h
      simp [setPrecisionProps, get_center, Shape.isVertex]
  | edge e =>
      have hgt : pyCapitalize e.geomType ≠ "Vertex" := by
        have := hwf rfl
        simpa [shapeGeomType] using this
      rcases hge : get_center (Shape.edge e) false with _ | c
      · simp [get_center] at hge
      · simp only [handle_properties_shape, PropertiesResponse.empty, shapeGeomType,
          hge, Option.some.injEq] at h
        subst h
        simp [setPrecisionProps, hge, Shape.isVertex, shapeGeomType, hgt]
  | face f =>
      have hgt : pyCapitalize f.geomType ≠ "Vertex" := by
        have := hwf rfl
        simpa [shapeGeomType] using this
      by_cases hcyl : f.geomType = "CYLINDER"
      · rcases hhead : (circularEdges f).head? with _ | c
        · simp [handle_properties_shape, hcyl, hhead] at h
        · have hge : get_center (Shape.face f) false = some f.centerPt := by
            simp [get_center, hcyl]
          simp [handle_properties_shape, PropertiesResponse.empty, shapeGeomType,
            hcyl, hhead, hge] at h
          subst h
          simp [setPrecisionProps, hge, Shape.isVertex, shapeGeomType, hcyl, hhead,
            show pyCapitalize "CYLINDER" ≠ "Vertex" from by decide]
      · have hge : get_center (Shape.face f) false = some f.centerPt := by
          simp [get_center, hcyl]
        simp [handle_properties_shape, PropertiesResponse.empty, shapeGeomType,
          hcyl, hge] at h
        subst h
        simp [setPrecisionProps, hge, Shape.isVertex, shapeGeomType, hgt, hcyl]
  | solid sd =>
      have hgt : pyCapitalize sd.geomType ≠ "Vertex" := by
        have := hwf rfl
        simpa [shapeGeomType] using this
      simp only [handle_properties_shape, PropertiesResponse.empty, shapeGeomType,
        get_center, Option.some.injEq] at h
      subst h
      simp [setPrecisionProps, get_center, Shape.isVertex, shapeGeomType, hgt]

theorem C4_properties_fields_witness :
    handle_properties_shape (Shape.vertex wVert) = some wVertResp ∧
      wVertResp.vertex_coords = some (Vec3.round2 wVert.coords) ∧
      wVertResp.geom_type = none ∧ wVertResp.volume = none :=
  ⟨rfl,
   (C4_properties_fields (Shape.vertex wVert) wVertResp
      (by intro hh; simp [Shape.isVertex] at hh) rfl).2.2.1,
   by
     have := (C4_properties_fields (Shape.vertex wVert) wVertResp
       (by intro hh; simp [Shape.isVertex] at hh) rfl).2.1
     simpa [Shape.isVertex] using this,
   rfl⟩

theorem handle_distance_shapes_swap (s1 s2 : Shape) (r r2 : DistanceResponse)
    (h1 : handle_distance_shapes s1 s2 = some r)
    (h2 : handle_distance_shapes s2 s1 = some r2) :
    r.distance = r2.distance ∧ r.point1 = r2.point2 ∧ r.point2 = r2.point1 := by
  rcases hc1 : get_center s1 true with _ | p1
  · simp [handle_distance_shapes, hc1] at h1
  rcases hc2 : get_center s2 true with _ | p2
  · simp [handle_distance_shapes, hc1, hc2] at h1
  simp [handle_distance_shapes, hc1, hc2] at h1 h2
  subst h1
  subst h2
  refine ⟨?_, rfl, rfl⟩
  show round2R (euclid (Vec3.sub p2 p1)) = round2R (euclid (Vec3.sub p1 p2))
  rw [euclid_sub_comm p2 p1]

theorem handle_distance_shapes_self (s : Shape) (r : DistanceResponse)
    (h : handle_distance_shapes s s = some r) : r.distance = 0 := by
  rcases hc : get_center s true with _ | p
  · simp [handle_distance_shapes, hc] at h
  simp [handle_distance_shapes, hc] at h
  subst h
  show round2R (euclid (Vec3.sub p p)) = 0
  rw [euclid_sub_self, round2R_zero]

/-- C7: For every pair of identifiers resolving in the model, the Distance
handler is symmetric (same scalar distance, anchor points exchanged) and
the distance of a shape to itself is 0. -/
theorem C7_distance_symmetric (model : Option Model) (i j : Nat)
    (r1 r2 r3 : DistanceResponse) :
    (handle_distance model i j = .ok r1 → handle_distance model j i = .ok r2 →
      r1.distance = r2.distance ∧ r1.point1 = r2.point2 ∧ r1.point2 = r2.point1) ∧
      (handle_distance model i i = .ok r3 → r3.distance = 0) := by
  constructor
  · intro h1 h2
    rcases hli : lookupShape model i with e | si
    · simp [handle_distance, hli] at h1
    rcases hlj : lookupShape model j with e2 | sj
    · simp [handle_distance, hli, hlj] at h1
    rcases hds : handle_distance_shapes si sj with _ | ra
    · simp [handle_distance, hli, hlj, hds] at h1
    rcases hds2 : handle_distance_shapes sj si with _ | rb
    · simp [handle_distance, hli, hlj, hds2] at h2
    simp [handle_distance, hli, hlj, hds, hds2] at h1 h2
    subst h1
    subst h2
    exact handle_distance_shapes_swap si sj ra rb hds hds2
  · intro h3
    rcases hli : lookupShape model i with e | si
    · simp [handle_distance, hli] at h3
    rcases hds : handle_distance_shapes si si with _ | ra
    · simp [handle_distance, hli, hds] at h3
    simp [handle_distance, hli, hds] at h3
    subst h3
    exact handle_distance_shapes_self si ra hds

theorem C7_distance_symmetric_witness :
    handle_distance (some wModel) 0 1 = .ok wDistAB ∧
      wDistAB.distance = wDistBA.distance ∧ wDistAA.distance = 0 :=
  ⟨rfl,
   ((C7_distance_symmetric (some wModel) 0 1 wDistAB wDistBA wDistAA).1 rfl rfl).1,
   (C7_distance_symmetric (some wModel) 0 0 wDistAA wDistAA wDistAA).2 rfl⟩

/-- C8: Swapping the two arguments of the Angle handler yields the same
absolute angle value in the response, while the two anchor points are
exchanged. -/
theorem C8_angle_swap (s1 s2 : Shape) (r r2 : AngleResponse)
    (h1 : handle_angle_shapes s1 s2 = some r)
    (h2 : handle_angle_shapes s2 s1 = some r2) :
    r.angle = r2.angle ∧ r.point1 = r2.point2 ∧ r.point2 = r2.point1 := by
  rcases hd1 : derive_ref s1 with _ | a
  · simp [handle_angle_shapes, hd1] at h1
  rcases hd2 : derive_ref s2 with _ | b
  · simp [handle_angle_shapes, hd1, hd2] at h1
  rcases hc1 : get_center s1 true with _ | p1
  · simp [handle_angle_shapes, hd1, hd2, hc1] at h1
  rcases hc2 : get_center s2 true with _ | p2
  · simp [handle_angle_shapes, hd1, hd2, hc1, hc2] at h1
  simp [handle_angle_shapes, hd1, hd2, hc1, hc2] at h1 h2
  subst h1
  subst h2
  refine ⟨?_, rfl, rfl⟩
  show round2R |angle_value a b| = round2R |angle_value b a|
  rw [angle_value_swap a b]

theorem C8_angle_swap_witness :
    handle_angle_shapes (Shape.face wFace1) (Shape.face wFace2) = some wAngFF ∧
      handle_angle_shapes (Shape.face wFace2) (Shape.face wFace1) = some wAngFFswap ∧
      wAngFF.angle = wAngFFswap.angle ∧ wAngFF.point1 = wAngFFswap.point2 :=
  ⟨rfl, rfl,
   (C8_angle_swap (Shape.face wFace1) (Shape.face wFace2) wAngFF wAngFFswap rfl rfl).1,
   (C8_angle_swap (Shape.face wFace1) (Shape.face wFace2) wAngFF wAngFFswap rfl rfl).2.1⟩

/-- C5: The Angle handler computes the angle by the pairing of the derived
reference kinds (plane and plane: angle of the z directions; vector and
vector: angle of the vectors; plane and vector in either order: 90 degrees
minus the angle of the normal and the vector), emits the absolute value
rounded to 2 decimals, and emits point1 and point2 as the two distance-mode
centers regardless of the angle geometry. -/
theorem C5_angle_branches (s1 s2 : Shape) (r : AngleResponse)
    (h : handle_angle_shapes s1 s2 = some r) :
    (∃ p1 p2, get_center s1 true = some p1 ∧ get_center s2 true = some p2 ∧
      r.point1 = p1.round2 ∧ r.point2 = p2.round2) ∧
      (∀ z1 z2, derive_ref s1 = some (.plane z1) → derive_ref s2 = some (.plane z2) →
        r.angle = round2R |getAngle z1 z2|) ∧
      (∀ v1 v2, derive_ref s1 = some (.vector v1) → derive_ref s2 = some (.vector v2) →
        r.angle = round2R |getAngle v1 v2|) ∧
      (∀ z v, derive_ref s1 = some (.plane z) → derive_ref s2 = some (.vector v) →
        r.angle = round2R |90 - getAngle z v|) ∧
      (∀ z v, derive_ref s1 = some (.vector v) → derive_ref s2 = some (.plane z) →
        r.angle = round2R |90 - getAngle z v|) := by
  rcases hd1 : derive_ref s1 with _ | a
  · simp [handle_angle_shapes, hd1] at h
  rcases hd2 : derive_ref s2 with _ | b
  · simp [handle_angle_shapes, hd1, hd2] at h
  rcases hc1 : get_center s1 true with _ | p1
  · simp [handle_angle_shapes, hd1, hd2, hc1] at h
  rcases hc2 : get_center s2 true with _ | p2
  · simp [handle_angle_shapes, hd1, hd2, hc1, hc2] at h
  simp [handle_angle_shapes, hd1, hd2, hc1, hc2] at h
  subst h
  refine ⟨⟨p1, p2, rfl, rfl, rfl, rfl⟩, ?_, ?_, ?_, ?_⟩
  · intro z1 z2 h1 h2
    obtain rfl := Option.some.inj h1
    obtain rfl := Option.some.inj h2
    rfl
  · intro v1 v2 h1 h2
    obtain rfl := Option.some.inj h1
    obtain rfl := Option.some.inj h2
    rfl
  · intro z v h1 h2
    obtain rfl := Option.some.inj h1
    obtain rfl := Option.some.inj h2
    rfl
  · intro z v h1 h2
    obtain rfl := Option.some.inj h1
    obtain rfl := Option.some.inj h2
    rfl

theorem C5_angle_branches_witness :
    handle_angle_shapes (Shape.face wFace1) (Shape.face wFace2) = some wAngFF ∧
      wAngFF.angle = round2R |getAngle ⟨0, 0, 1⟩ ⟨0, 1, 0⟩| :=
  ⟨rfl,
   (C5_angle_branches (Shape.face wFace1) (Shape.face wFace2) wAngFF rfl).2.1
     ⟨0, 0, 1⟩ ⟨0, 1, 0⟩ rfl rfl⟩

theorem handle_event_updates_keeps (st : BackendState) (ch : Changes) :
    (handle_event st (.updates ch)).1 =
      { st with activated_tool := update_tool st.activated_tool ch } := by
  rcases ht : update_tool st.activated_tool ch with _ | t
  · simp [handle_event, handle_event_core, ht]
  · rcases hd : handle_activated_tool t ch with _ | d
    · simp [handle_event, handle_event_core, ht, hd]
    · rcases hr : run_dispatch st.model d with e2 | resp
      · simp [handle_event, handle_event_core, ht, hd, hr]
      · simp [handle_event, handle_event_core, ht, hd, hr]

/-- C6: Every exception raised while handling an event is caught by the
blanket error boundary: the wrapped handler always returns (the loop
resumes), an error produces the logged diagnostic flag and no response, a
failing model load leaves the previous state untouched, a successful load
replaces the model atomically, and an updates event never corrupts state:
its final model is the old model and its final tool is exactly the full
tool update prescribed by the event. -/
theorem C6_error_boundary (st : BackendState) (e : String) (m : Model) (ch : Changes) :
    handle_event st (.data (.error e)) = (st, none, true) ∧
      handle_event st (.data (.ok m)) = ({ st with model := some m }, none, false) ∧
      (handle_event st (.updates ch)).1.model = st.model ∧
      (handle_event st (.updates ch)).1.activated_tool = update_tool st.activated_tool ch ∧
      (∀ ev st1 e2, handle_event_core st ev = .error (st1, e2) →
        handle_event st ev = (st1, none, true)) ∧
      (∀ ev, (handle_event st ev).2.2 = true → (handle_event st ev).2.1 = none) := by
  refine ⟨rfl, rfl, ?_, ?_, ?_, ?_⟩
  · rw [handle_event_updates_keeps]
  · rw [handle_event_updates_keeps]
  · intro ev st1 e2 hc
    simp [handle_event, hc]
  · intro ev
    rcases hc : handle_event_core st ev with ⟨st1, e2⟩ | ⟨st1, resp⟩
    · simp [handle_event, hc]
    · simp [handle_event, hc]

theorem C6_error_boundary_witness :
    handle_event ⟨some wModel, none⟩ (Event.data (Except.error "UnpicklingError")) =
      (⟨some wModel, none⟩, none, true) :=
  (C6_error_boundary ⟨some wModel, none⟩ "UnpicklingError" wModel
      ⟨none, none⟩).2.2.2.2.1
    (Event.data (Except.error "UnpicklingError")) ⟨some wModel, none⟩ "UnpicklingError" rfl

/-- C9: Inside one state-update event the tool update is applied before
selection dispatch: when the event names a tool, the outcome is the same
as if the backend had already been in that tool state, and the final tool
state is the one named by the event; when the event sets the tool to the
literal None, no handler runs and no response or diagnostic is emitted,
whatever selection the same event carries. -/
theorem C9_tool_update_before_dispatch (st : BackendState) (ch : Changes) (t : String) :
    (ch.activeTool = some "None" →
      handle_event st (.updates ch) = ({ st with activated_tool := none }, none, false)) ∧
      (ch.activeTool = some t → t ≠ "None" →
        handle_event st (.updates ch) =
          handle_event { st with activated_tool := some t } (.updates ch) ∧
        (handle_event st (.updates ch)).1.activated_tool = some t) := by
  constructor
  · intro hN
    have hu : update_tool st.activated_tool ch = none := by
      simp [update_tool, hN]
    simp [handle_event, handle_event_core, hu]
  · intro h1 h2
    have hu : ∀ a : Option String, update_tool a ch = some t := by
      intro a
      simp [update_tool, h1, h2]
    constructor
    · cases st with
      | mk mdl tl => simp [handle_event, handle_event_core, hu]
    · rw [handle_event_updates_keeps]
      simp [hu]

theorem C9_tool_update_before_dispatch_witness :
    handle_event ⟨some wModel, some Tool.Distance⟩
        (.updates ⟨some "None", some [0, 1]⟩) =
      (⟨some wModel, none⟩, none, false) :=
  (C9_tool_update_before_dispatch ⟨some wModel, some Tool.Distance⟩
      ⟨some "None", some [0, 1]⟩ "None").1 rfl

end OCPBackend
